import Mathlib

set_option maxRecDepth 40000

/-!
Shallow embedding of the telegram-bot-factory core, translated from
src/onlysq_api.py (the gateway client), src/bot_manager.py (the per-tenant
worker and the supervisor) and src/main.py (the token validator), together
with theorems settling the spec claims about them.
-/

namespace BotFactory

/-- A chat message: embedding of the Python dicts with keys "role" and
"content" used for conversation turns and outbound payloads. -/
structure Msg where
  role : String
  content : String
deriving DecidableEq

/-- Outcome of the single HTTP POST performed by OnlySqAPI.chat.
`response status content` is an HTTP reply with the given status code, where
`content` is the extraction of choices[0].message.content from the parsed
JSON body, or `none` when that extraction fails (malformed body).
`timeout` is asyncio.TimeoutError; `exn` is any other exception raised inside
the try block (transport error, JSON decode failure, ...). -/
inductive HttpOutcome
  | timeout
  | exn
  | response (status : Nat) (content : Option String)
deriving DecidableEq

/-- Fixed text returned by OnlySqAPI.chat on a non-200 HTTP status
(src/onlysq_api.py line 74). -/
def apiErrorText : String := "Извини, произошла ошибка при обращении к API."

/-- Fixed text returned by OnlySqAPI.chat on asyncio.TimeoutError
(src/onlysq_api.py line 81). -/
def timeoutText : String := "Извини, запрос занял слишком много времени."

/-- Fixed text returned by OnlySqAPI.chat on any other exception, including a
malformed response body (src/onlysq_api.py line 84). -/
def processErrorText : String := "Произошла ошибка при обработке запроса."

/-- Fixed apology sent by ManagedBot.message_handler in its except branch
(src/bot_manager.py lines 81-83). -/
def handlerApologyText : String := "😔 Извини, произошла ошибка. Попробуй еще раз."

/-- Embedding of the message-list construction in OnlySqAPI.chat
(src/onlysq_api.py lines 51-57): full_messages starts empty, gets a system
message appended when system_prompt is truthy (non-empty), and is then
extended with the caller's messages. -/
def full_messages (system_prompt : String) (messages : List Msg) : List Msg :=
  (if system_prompt ≠ "" then [⟨"system", system_prompt⟩] else []) ++ messages

/-- Embedding of the result of OnlySqAPI.chat (src/onlysq_api.py lines 65-84)
as a function of the HTTP outcome. The method catches asyncio.TimeoutError and
every other exception inside its try block and returns a fixed fallback string
in each case, so it is a total function into String: it never raises. -/
def chat (outcome : HttpOutcome) : String :=
  match outcome with
  | .timeout => timeoutText
  | .exn => processErrorText
  | .response status content =>
      if status ≠ 200 then apiErrorText
      else
        match content with
        | some c => c
        | none => processErrorText

/-- A gateway call counts as failed when it timed out, raised, returned a
non-2xx status, or returned a body from which no content could be extracted. -/
def gatewayFailed : HttpOutcome → Bool
  | .timeout => true
  | .exn => true
  | .response status content => status != 200 || content.isNone

/-- Embedding of the history cap in ManagedBot.message_handler
(src/bot_manager.py lines 61-62): if len(ctx) > 20 then ctx = ctx[-20:],
i.e. keep only the last 20 entries. -/
def capHistory (h : List Msg) : List Msg :=
  if h.length > 20 then h.drop (h.length - 20) else h

/-- Per-bot handler state: the user_contexts table of ManagedBot
(src/bot_manager.py line 34). A user id absent from the Python dict behaves
exactly as an empty history, because every handler lazily initialises a
missing key to [], so the table is modelled as a total function. -/
structure BotState where
  user_contexts : Nat → List Msg

/-- The state of a freshly constructed ManagedBot: no user has any history. -/
def emptyBotState : BotState := ⟨fun _ => []⟩

/-- Embedding of ManagedBot.message_handler (src/bot_manager.py lines 45-83)
for one inbound message: append the user turn, apply the cap, call the
gateway, append the response as an assistant turn, and reply with the
response text. Because `chat` catches every exception internally and returns
a string, the handler's own except branch (which would send
handlerApologyText) is unreachable for gateway failures, so the embedding
follows the always-taken success path with `chat outcome` as the response.
Returns the updated state and the text sent as the reply. -/
def message_handler (st : BotState) (system_prompt : String) (user_id : Nat)
    (text : String) (outcome : HttpOutcome) : BotState × String :=
  let h0 := st.user_contexts user_id
  let h1 := h0 ++ [⟨"user", text⟩]
  let h2 := capHistory h1
  let response := chat outcome
  let h3 := h2 ++ [⟨"assistant", response⟩]
  (⟨fun u => if u = user_id then h3 else st.user_contexts u⟩, response)

/-- Embedding of ManagedBot.reset_handler (src/bot_manager.py lines 85-91):
set the invoking user's context to [] and send a confirmation reply. -/
def reset_handler (st : BotState) (user_id : Nat) : BotState × String :=
  (⟨fun u => if u = user_id then [] else st.user_contexts u⟩,
   "🔄 Контекст диалога сброшен. Начнем с чистого листа!")

/-- Handle a sequence of inbound messages from one end-user, each paired with
the outcome of its gateway call, threading the bot state through. -/
def handleMessages (st : BotState) (system_prompt : String) (user_id : Nat) :
    List (String × HttpOutcome) → BotState
  | [] => st
  | m :: rest =>
      handleMessages (message_handler st system_prompt user_id m.1 m.2).1
        system_prompt user_id rest

/-- A trace of n inbound messages "u1", ..., "un", each answered by a
successful (status 200) mocked gateway reply "a1", ..., "an". -/
def okMsgs (n : Nat) : List (String × HttpOutcome) :=
  (List.range n).map
    (fun k => ("u" ++ toString (k + 1),
               HttpOutcome.response 200 (some ("a" ++ toString (k + 1)))))

/-- The per-bot fields set by ManagedBot.__init__ (src/bot_manager.py
lines 27-34) that outlive a start: identifier, credential, behavior
profile and the per-user context table (initially empty). -/
structure ManagedBotState where
  bot_id : Nat
  bot_token : String
  system_prompt : String
  user_contexts : Nat → List Msg

/-- Outcome of ManagedBot.start_polling inside BotManager.start_bot: `ok`
when the worker comes up, `fail` when it raises (invalid credential,
transport rejection, ...). -/
inductive StartOutcome
  | ok
  | fail
deriving DecidableEq

/-- Outcome of ManagedBot.stop inside BotManager.stop_bot: `ok` when the
worker shuts down cleanly, `fail` when it raises. -/
inductive StopOutcome
  | ok
  | fail
deriving DecidableEq

/-- The supervisor state: the `bots` dict of BotManager (src/bot_manager.py
line 124), modelled as an association list in insertion order. A Python dict
never holds two entries with one key, and start_bot only inserts a key after
checking it is absent, so keys stay pairwise distinct. -/
structure BotManager where
  bots : List (Nat × ManagedBotState)

/-- A supervisor with no running bots, as built by BotManager.__init__. -/
def emptyManager : BotManager := ⟨[]⟩

/-- Embedding of BotManager.get_running_bots (src/bot_manager.py
lines 168-170): list(self.bots.keys()). -/
def get_running_bots (m : BotManager) : List Nat := m.bots.map Prod.fst

/-- Embedding of BotManager.start_bot (src/bot_manager.py lines 126-147).
The whole body sits in a try/except returning False on any exception, so the
function is total into Bool: if the id is already registered it returns
False; otherwise a ManagedBot is built and start_polling runs — when it
raises (outcome `fail`) the except branch returns False with the registry
untouched, and when it succeeds the bot is registered and True returned. -/
def start_bot (m : BotManager) (bot_id : Nat) (bot_token system_prompt : String)
    (outcome : StartOutcome) : Bool × BotManager :=
  if bot_id ∈ m.bots.map Prod.fst then (false, m)
  else
    match outcome with
    | .fail => (false, m)
    | .ok =>
        (true, ⟨m.bots ++ [(bot_id, ⟨bot_id, bot_token, system_prompt, fun _ => []⟩)]⟩)

/-- Embedding of BotManager.stop_bot (src/bot_manager.py lines 149-161): an
unknown id returns False with nothing touched; otherwise the worker's stop
runs — when it raises (outcome `fail`) the except branch returns False and
the entry is NOT deleted; when it succeeds the entry is deleted and True
returned. Deleting the dict key removes its sole binding, rendered here as a
filter over the (distinct-keyed) association list. -/
def stop_bot (m : BotManager) (bot_id : Nat) (outcome : StopOutcome) :
    Bool × BotManager :=
  if bot_id ∈ m.bots.map Prod.fst then
    match outcome with
    | .fail => (false, m)
    | .ok => (true, ⟨m.bots.filter (fun p => p.1 != bot_id)⟩)
  else (false, m)

/-- Embedding of Python str.split applied with separator ":" in
BotFactory._validate_token, over the token's character list: every colon
separates two (possibly empty) parts, so the result has one part more than
the number of colons, and splitting the empty string yields one empty part,
exactly as in Python. -/
def pySplitColon : List Char → List (List Char)
  | [] => [[]]
  | c :: rest =>
      match pySplitColon rest with
      | [] => [[]]
      | h :: t => if c = ':' then [] :: h :: t else (c :: h) :: t

/-- Embedding of Python str.isdigit, parameterized by the per-character
digit test: a string passes iff it is non-empty and every character passes
the test. Python defines the character test by the Unicode properties
Numeric_Type=Decimal or Numeric_Type=Digit; that table lives outside the
repository, so it enters the embedding as a parameter, the way the HTTP
outcome does for the gateway client. -/
def pyIsDigit (isdigitChar : Char → Bool) (cs : List Char) : Bool :=
  cs.length > 0 && cs.all isdigitChar

/-- A concrete instance of Python's character-level digit test, adequate for
the tokens evaluated in this file: the ASCII decimal digits together with
superscript two (U+00B2), which Unicode marks Numeric_Type=Digit, so
Python's str.isdigit accepts it although it is not a decimal digit.
Python's real table holds further such non-ASCII digit characters; the
claim-level theorem below is parametric in the test, so it holds for the
full table as well. -/
def pyIsDigitChar (c : Char) : Bool := c.isDigit || c = '²'

/-- Embedding of BotFactory._validate_token (src/main.py lines 368-374),
parameterized by the per-character test behind str.isdigit: split on the
colon; reject unless exactly two parts; accept iff the first part passes
isdigit (so it is non-empty and every character passes the character test)
and the second part is longer than 20 characters. -/
def validate_token (isdigitChar : Char → Bool) (token : String) : Bool :=
  let parts := pySplitColon token.toList
  if parts.length ≠ 2 then false
  else pyIsDigit isdigitChar (parts.headD []) && (parts.getD 1 []).length > 20

/-- The outbound message list as the spec words it: one system-role message
carrying the behavior profile iff it is non-empty, followed by the
caller-supplied history unchanged and in its original order. -/
def specOutboundMessages (behaviorProfile : String) (history : List Msg) :
    List Msg :=
  if behaviorProfile = "" then history
  else ⟨"system", behaviorProfile⟩ :: history

/-- A concrete registered worker, for witnesses. -/
def sampleWorker : ManagedBotState := ⟨1, "tok", "prompt", fun _ => []⟩

/-- A concrete supervisor with the single worker 1 registered. -/
def sampleManager : BotManager := ⟨[(1, sampleWorker)]⟩

/-- A concrete handler state where users 3 and 5 both have a history. -/
def sampleState : BotState :=
  ⟨fun v => if v = 3 then [⟨"user", "x"⟩]
            else if v = 5 then [⟨"user", "y"⟩] else []⟩

/-! ## Helper lemmas -/

/-- A start on an already-registered id returns false and changes nothing. -/
lemma start_bot_mem_false (m : BotManager) (T : Nat) (tok sp : String)
    (o : StartOutcome) (h : T ∈ m.bots.map Prod.fst) :
    start_bot m T tok sp o = (false, m) := by
  unfold start_bot
  rw [if_pos h]

/-- A start that returned true has registered its id. -/
lemma start_bot_true_mem (m : BotManager) (T : Nat) (tok sp : String)
    (o : StartOutcome) (h : (start_bot m T tok sp o).1 = true) :
    T ∈ get_running_bots (start_bot m T tok sp o).2 := by
  unfold start_bot at h ⊢
  by_cases hm : T ∈ m.bots.map Prod.fst
  · rw [if_pos hm] at h
    simp at h
  · rw [if_neg hm] at h ⊢
    cases o with
    | fail => simp at h
    | ok => simp [get_running_bots]

/-- A stop that returned true has removed its id from the registry. -/
lemma stop_bot_true_not_mem (m : BotManager) (T : Nat) (o : StopOutcome)
    (h : (stop_bot m T o).1 = true) :
    T ∉ get_running_bots (stop_bot m T o).2 := by
  unfold stop_bot at h ⊢
  by_cases hm : T ∈ m.bots.map Prod.fst
  · rw [if_pos hm] at h ⊢
    cases o with
    | fail => simp at h
    | ok => simp [get_running_bots, List.mem_filter]
  · rw [if_neg hm] at h
    simp at h

/-- The cap never lets more than 20 entries through. -/
lemma capHistory_length_le (l : List Msg) : (capHistory l).length ≤ 20 := by
  unfold capHistory
  split
  · rw [List.length_drop]
    omega
  · next h => omega

/-- The history the handler stores for the invoking user is the capped
user-append followed by the assistant turn carrying the chat result. -/
lemma message_handler_context (st : BotState) (sp : String) (uid : Nat)
    (text : String) (o : HttpOutcome) :
    (message_handler st sp uid text o).1.user_contexts uid =
      capHistory (st.user_contexts uid ++ [⟨"user", text⟩]) ++
        [⟨"assistant", chat o⟩] := by
  show (if uid = uid then _ else _) = _
  rw [if_pos rfl]

/-! ## C1: behaviour of the handler on gateway failure -/

/-- C1 counterexample: with an empty history, one message "hi" whose gateway
call times out leaves a history different from the bare capped user turn (an
assistant turn WAS appended), and the reply sent is not the handler's fixed
apology text — refuting the claim that a failed gateway call appends no
assistant turn and sends the fixed apology. -/
theorem gateway_failure_claim_counterexample :
    gatewayFailed HttpOutcome.timeout = true ∧
    (message_handler emptyBotState "" 0 "hi" HttpOutcome.timeout).1.user_contexts 0 ≠
      [⟨"user", "hi"⟩] ∧
    (message_handler emptyBotState "" 0 "hi" HttpOutcome.timeout).2 ≠
      handlerApologyText := by
  refine ⟨rfl, by decide, by decide⟩

/-- C1 (amended): on every gateway failure (timeout, raised exception,
non-200 status, malformed body) the handler replies with the fixed degraded
text that OnlySqAPI.chat returns for that failure class — not with the
handler's own apology, whose branch is unreachable because chat never
raises — and appends that text to the user's history as an assistant turn on
top of the capped user-append. -/
theorem gateway_failure_degraded_reply (st : BotState) (sp : String)
    (uid : Nat) (text : String) (o : HttpOutcome)
    (h : gatewayFailed o = true) :
    (message_handler st sp uid text o).2 = chat o ∧
    (chat o = timeoutText ∨ chat o = apiErrorText ∨ chat o = processErrorText) ∧
    (message_handler st sp uid text o).1.user_contexts uid =
      capHistory (st.user_contexts uid ++ [⟨"user", text⟩]) ++
        [⟨"assistant", chat o⟩] := by
  refine ⟨rfl, ?_, message_handler_context st sp uid text o⟩
  cases o with
  | timeout => exact Or.inl rfl
  | exn => exact Or.inr (Or.inr rfl)
  | response status content =>
      by_cases hs : status = 200
      · subst hs
        cases content with
        | some c => simp [gatewayFailed] at h
        | none => exact Or.inr (Or.inr (by simp [chat]))
      · exact Or.inr (Or.inl (by simp [chat, hs]))

/-- C1 witness: the amended theorem applied at a concrete failing outcome. -/
theorem gateway_failure_degraded_reply_witness :
    gatewayFailed HttpOutcome.exn = true ∧
    (message_handler emptyBotState "p" 7 "hello" HttpOutcome.exn).2 =
      chat HttpOutcome.exn :=
  ⟨by decide,
   (gateway_failure_degraded_reply emptyBotState "p" 7 "hello" HttpOutcome.exn
      (by decide)).1⟩

/-! ## C2: the history-length invariant -/

/-- C2 counterexample: from an empty history, 11 handled messages with
successful gateway replies leave a history of length 21 — refuting the claim
that no reachable post-handler history exceeds 20 entries. -/
theorem history_cap_claim_counterexample :
    ((handleMessages emptyBotState "" 0 (okMsgs 11)).user_contexts 0).length > 20 := by
  decide

/-- C2 (amended): the cap is applied only after the user turn, never after
the assistant turn, so after any completed handler invocation the invoking
user's history holds at most 21 entries (20 capped plus the appended
assistant turn), from any prior state whatsoever. -/
theorem history_length_le_21_after_handler (st : BotState) (sp : String)
    (uid : Nat) (text : String) (o : HttpOutcome) :
    ((message_handler st sp uid text o).1.user_contexts uid).length ≤ 21 := by
  rw [message_handler_context st sp uid text o, List.length_append]
  have h := capHistory_length_le (st.user_contexts uid ++ [⟨"user", text⟩])
  simp only [List.length_cons, List.length_nil]
  omega

/-! ## C3: the 25-message scenario -/

/-- C3 counterexample: the 25-message trace with mocked successful replies
ends with a history of 21 entries, not the claimed 20. -/
theorem trace25_claim_counterexample :
    ((handleMessages emptyBotState "" 0 (okMsgs 25)).user_contexts 0).length ≠ 20 := by
  decide

/-- C3 (amended): starting from an empty history, handling 25 sequential
messages each answered by a successful mocked gateway reply leaves a final
history of exactly 21 entries whose first entry is the assistant reply to the
15th message sent (the cap fires before each assistant append, so the oldest
surviving entry is an assistant turn, not the claimed 6th user turn). -/
theorem trace25_final_history :
    ((handleMessages emptyBotState "" 0 (okMsgs 25)).user_contexts 0).length = 21 ∧
    ((handleMessages emptyBotState "" 0 (okMsgs 25)).user_contexts 0).head? =
      some ⟨"assistant", "a15"⟩ := by
  constructor <;> decide

/-! ## C4: start/stop versus the running list -/

/-- C4: when a start for tenant T returns true, the running list contains T;
and when a subsequent stop for T returns true, the running list of the
resulting state no longer contains T. -/
theorem start_stop_running (m : BotManager) (T : Nat) (tok sp : String)
    (o1 : StartOutcome) (o2 : StopOutcome)
    (h1 : (start_bot m T tok sp o1).1 = true) :
    T ∈ get_running_bots (start_bot m T tok sp o1).2 ∧
    ((stop_bot (start_bot m T tok sp o1).2 T o2).1 = true →
      T ∉ get_running_bots (stop_bot (start_bot m T tok sp o1).2 T o2).2) :=
  ⟨start_bot_true_mem m T tok sp o1 h1,
   fun h2 => stop_bot_true_not_mem _ T o2 h2⟩

/-- C4 witness: the theorem applied at a concrete successful start and stop. -/
theorem start_stop_running_witness :
    0 ∈ get_running_bots (start_bot emptyManager 0 "t" "s" StartOutcome.ok).2 ∧
    0 ∉ get_running_bots
        (stop_bot (start_bot emptyManager 0 "t" "s" StartOutcome.ok).2 0
          StopOutcome.ok).2 :=
  ⟨(start_stop_running emptyManager 0 "t" "s" StartOutcome.ok StopOutcome.ok
      (by decide)).1,
   (start_stop_running emptyManager 0 "t" "s" StartOutcome.ok StopOutcome.ok
      (by decide)).2 (by decide)⟩

/-! ## C5: two starts for one tenant -/

/-- C5 counterexample: when worker initialization fails in both calls
(start_polling raises), two sequential starts for one id both return false —
refuting the claim that exactly one of the two calls returns true. -/
theorem start_twice_claim_counterexample :
    (start_bot emptyManager 0 "t" "s" StartOutcome.fail).1 = false ∧
    (start_bot (start_bot emptyManager 0 "t" "s" StartOutcome.fail).2 0 "t" "s"
        StartOutcome.fail).1 = false := by
  constructor <;> decide

/-- C5 (amended): for two sequential starts of one tenant id with no
intervening stop, at most one call returns true — never both — and when the
id starts out unregistered and the first call's worker initialization
succeeds, the first call returns true and the second false. Both calls can
return false (failing initialization), and the code's membership check and
registration are separated by an await, so the claimed exactly-one outcome
under arbitrary interleaving is not what the code provides. -/
theorem start_twice_at_most_one (m : BotManager) (T : Nat)
    (tok1 sp1 tok2 sp2 : String) (o1 o2 : StartOutcome) :
    (¬((start_bot m T tok1 sp1 o1).1 = true ∧
       (start_bot (start_bot m T tok1 sp1 o1).2 T tok2 sp2 o2).1 = true)) ∧
    (T ∉ m.bots.map Prod.fst → o1 = StartOutcome.ok →
      (start_bot m T tok1 sp1 o1).1 = true ∧
      (start_bot (start_bot m T tok1 sp1 o1).2 T tok2 sp2 o2).1 = false) := by
  constructor
  · rintro ⟨h1, h2⟩
    have hmem := start_bot_true_mem m T tok1 sp1 o1 h1
    unfold get_running_bots at hmem
    rw [start_bot_mem_false _ T tok2 sp2 o2 hmem] at h2
    simp at h2
  · intro hnm ho
    subst ho
    refine ⟨?_, ?_⟩
    · unfold start_bot
      rw [if_neg hnm]
    · have hmem :
          T ∈ ((start_bot m T tok1 sp1 StartOutcome.ok).2).bots.map Prod.fst := by
        unfold start_bot
        rw [if_neg hnm]
        simp
      rw [start_bot_mem_false _ T tok2 sp2 o2 hmem]

/-- C5 witness: the amended theorem applied at a concrete fresh id with
successful worker initialization in the first call. -/
theorem start_twice_at_most_one_witness :
    (start_bot emptyManager 0 "a" "b" StartOutcome.ok).1 = true ∧
    (start_bot (start_bot emptyManager 0 "a" "b" StartOutcome.ok).2 0 "c" "d"
        StartOutcome.ok).1 = false :=
  (start_twice_at_most_one emptyManager 0 "a" "b" "c" "d" StartOutcome.ok
      StartOutcome.ok).2 (by decide) rfl

/-! ## C6: stop on an unknown id -/

/-- C6: stopping a tenant id absent from the registry returns false and
leaves the whole supervisor state — the registry and every registered
worker's state — unchanged. -/
theorem stop_absent_unchanged (m : BotManager) (T : Nat) (o : StopOutcome)
    (h : T ∉ m.bots.map Prod.fst) :
    stop_bot m T o = (false, m) := by
  unfold stop_bot
  rw [if_neg h]

/-- C6 witness: the theorem applied to a supervisor that runs worker 1,
stopped with the unknown id 2. -/
theorem stop_absent_unchanged_witness :
    (2 ∉ sampleManager.bots.map Prod.fst) ∧
    stop_bot sampleManager 2 StopOutcome.ok = (false, sampleManager) :=
  ⟨by decide, stop_absent_unchanged sampleManager 2 StopOutcome.ok (by decide)⟩

/-! ## C7: the outbound message list -/

/-- C7: OnlySqAPI.chat builds its outbound message list exactly as the spec
words it: one system-role message carrying the behavior profile iff the
profile is non-empty, followed by the caller-supplied history unchanged and
in its original order. -/
theorem full_messages_matches_spec (sp : String) (messages : List Msg) :
    full_messages sp messages = specOutboundMessages sp messages := by
  unfold full_messages specOutboundMessages
  by_cases h : sp = ""
  · simp [h]
  · simp [h]

/-! ## C8: worker failures become boolean results -/

/-- C8: the supervisor's start and stop are total functions into a boolean
result paired with the next state — the embedding of bodies whose worker
calls sit inside try/except, so no worker-internal exception reaches the
caller — and a raising worker operation (outcome fail) always produces the
result false. -/
theorem worker_failure_returns_false (m : BotManager) (id : Nat)
    (tok sp : String) :
    (start_bot m id tok sp StartOutcome.fail).1 = false ∧
    (stop_bot m id StopOutcome.fail).1 = false := by
  constructor
  · unfold start_bot
    split <;> rfl
  · unfold stop_bot
    split <;> rfl

/-! ## C9: reset semantics -/

/-- C9: the reset command sets the invoking user's history to empty — also
when none existed, since a missing key behaves as the empty history — and
leaves every other user's history exactly as it was. -/
theorem reset_clears_only_invoker (st : BotState) (u : Nat) :
    (reset_handler st u).1.user_contexts u = [] ∧
    ∀ v : Nat, v ≠ u →
      (reset_handler st u).1.user_contexts v = st.user_contexts v := by
  constructor
  · show (if u = u then _ else _) = _
    rw [if_pos rfl]
  · intro v hv
    show (if v = u then _ else _) = _
    rw [if_neg hv]

/-- C9 witness: the theorem applied to a state where users 3 and 5 both hold
a history; resetting user 3 empties it and leaves user 5 untouched. -/
theorem reset_clears_only_invoker_witness :
    (reset_handler sampleState 3).1.user_contexts 3 = [] ∧
    ((5 : Nat) ≠ 3 ∧
      (reset_handler sampleState 3).1.user_contexts 5 =
        sampleState.user_contexts 5) :=
  ⟨(reset_clears_only_invoker sampleState 3).1,
   by decide,
   (reset_clears_only_invoker sampleState 3).2 5 (by decide)⟩

/-! ## C10: the token validator -/

/-- C10 counterexample: with the digit test behaving as Python's str.isdigit
does on superscript two (U+00B2, Numeric_Type=Digit, so "²".isdigit() is
True), the validator accepts the token "²:" followed by 21 letters, although
its first part does not consist solely of decimal digits — refuting the
claim that every such string is rejected. -/
theorem validate_token_claim_counterexample :
    pyIsDigitChar '²' = true ∧
    Char.isDigit '²' = false ∧
    validate_token pyIsDigitChar "²:aaaaaaaaaaaaaaaaaaaaa" = true ∧
    ¬∀ c ∈ ("²" : String).toList, c.isDigit = true := by
  refine ⟨by decide, by decide, by decide, by decide⟩

/-- C10 (amended): for every per-character digit test — in particular
Python's, whose table admits non-ASCII digit characters such as superscript
two beyond the decimal digits — the validator accepts a token iff splitting
it on the colon yields exactly two parts, the first part non-empty with
every character passing the digit test, and the second part strictly longer
than 20 characters; every other string is rejected. Acceptance is therefore
not limited to all-decimal-digit first parts. -/
theorem validate_token_iff (isdigitChar : Char → Bool) (t : String) :
    validate_token isdigitChar t = true ↔
      ∃ a b : List Char, pySplitColon t.toList = [a, b] ∧
        a ≠ [] ∧ (∀ c ∈ a, isdigitChar c = true) ∧ 20 < b.length := by
  simp only [validate_token]
  cases hp : pySplitColon t.toList with
  | nil => simp [hp]
  | cons x rest =>
    cases rest with
    | nil => simp [hp]
    | cons y rest2 =>
      cases rest2 with
      | nil =>
          simp [hp, pyIsDigit, List.all_eq_true, List.length_pos]
          aesop
      | cons z rest3 => simp [hp]

end BotFactory
